import Mathlib

/-!
# Machwave — verification of the solid-rocket-motor simulator specification

This file embeds the machwave solid rocket motor simulator and the
frontend `FormControl` component in Lean 4 and proves properties about
them.

The numerical core (PropellantTable, GrainGeometryModel,
ChamberStateSolver, NozzleFlowModel, ThrustCalculator,
TrajectorySimulator, SimulationOrchestrator) is not shipped in the
repository snapshot under `src/` (only the frontend, READMEs and build
scripts are), so those components are modelled from the specification.
All physical quantities are rationals; closed-form expressions that are
transcendental in the specification (π, isentropic exponents, the
area-ratio relation, trigonometric correction factors) are replaced by
rational surrogates, documented at each definition.  The claims settled
here depend only on control flow, sign and monotonicity structure, never
on the exact values of those surrogates.
-/

/-! ## Data model -/

/-- Modelled from the spec: a BATES propellant grain segment — outer
diameter, core (bore) diameter, length, and the set of inhibited end
faces (modelled as one flag per face, so 0, 1 or 2 faces inhibited). -/
structure Grain where
  outerDiameter : ℚ
  coreDiameter : ℚ
  length : ℚ
  topFaceInhibited : Bool
  bottomFaceInhibited : Bool
  deriving Repr, DecidableEq

/-- Modelled from the spec: propellant record — density, burn-rate law
coefficients `(a, n)` with regression rate `r = a·P^n`, combustion
temperature, specific-heat ratio, molar mass.  The exponent `n` is
modelled as a natural number so that the law is computable over ℚ. -/
structure Propellant where
  density : ℚ
  burnRateCoefficient : ℚ
  burnRateExponent : ℕ
  combustionTemperature : ℚ
  specificHeatRatio : ℚ
  molarMass : ℚ
  deriving Repr, DecidableEq

/-- Modelled from the spec: the configuration record consumed by the
core — per-grain geometry, propellant identifier, chamber and nozzle
dimensions, ambient pressure, optional vehicle data, and a
maximum-steps bound standing for the maximum simulation time
(`maxSteps × Δt`). -/
structure Config where
  grains : List Grain
  propellantId : String
  chamberInnerDiameter : ℚ
  chamberLength : ℚ
  throatDiameter : ℚ
  exitDiameter : ℚ
  divergenceHalfAngle : ℚ
  ambientPressure : ℚ
  vehicleMass : Option ℚ
  dragCoefficient : ℚ
  referenceArea : ℚ
  maxSteps : ℕ
  deriving Repr, DecidableEq

/-- Modelled from the spec: one committed simulation step — time, burn
depth per grain, chamber pressure, propellant mass remaining, mass flow
rates in and out of the chamber, thrust. -/
structure SimulationState where
  time : ℚ
  burnDepths : List ℚ
  chamberPressure : ℚ
  propellantMass : ℚ
  massFlowIn : ℚ
  massFlowOut : ℚ
  thrust : ℚ
  deriving Repr, DecidableEq

/-- Modelled from the spec: one trajectory step — time, altitude,
velocity, acceleration and instantaneous vehicle mass. -/
structure TrajectoryState where
  time : ℚ
  altitude : ℚ
  velocity : ℚ
  acceleration : ℚ
  vehicleMass : ℚ
  deriving Repr, DecidableEq

/-- Modelled from the spec: the error taxonomy of §7.  `LookupError`
from the PropellantTable is a configuration error and is reported as
such. -/
inductive SimError where
  | configurationError : String → SimError
  | simulationDiverged : String → SimError
  deriving Repr, DecidableEq

/-! ## PropellantTable -/

/-- Modelled from the spec: the closed set of supported propellant
identifiers. -/
def supportedPropellants : List String :=
  ["KNDX", "KNSB-NAKKA", "KNSB", "KNSU", "KNER"]

/-- Modelled from the spec: KNDX coefficient record (values are
representative rationals; the claims do not depend on them). -/
def knDX : Propellant :=
  { density := 1795, burnRateCoefficient := 9/1000000, burnRateExponent := 1,
    combustionTemperature := 1710, specificHeatRatio := 113/100, molarMass := 42/1000 }

/-- Modelled from the spec: KNSB (Nakka burn-rate data) coefficient record. -/
def knSBNakka : Propellant :=
  { density := 1837, burnRateCoefficient := 8/1000000, burnRateExponent := 1,
    combustionTemperature := 1600, specificHeatRatio := 114/100, molarMass := 40/1000 }

/-- Modelled from the spec: KNSB coefficient record. -/
def knSB : Propellant :=
  { density := 1837, burnRateCoefficient := 5/1000, burnRateExponent := 0,
    combustionTemperature := 1600, specificHeatRatio := 114/100, molarMass := 40/1000 }

/-- Modelled from the spec: KNSU coefficient record. -/
def knSU : Propellant :=
  { density := 1889, burnRateCoefficient := 1/100000, burnRateExponent := 1,
    combustionTemperature := 1720, specificHeatRatio := 113/100, molarMass := 42/1000 }

/-- Modelled from the spec: KNER coefficient record. -/
def knER : Propellant :=
  { density := 1820, burnRateCoefficient := 2/1000000, burnRateExponent := 1,
    combustionTemperature := 1608, specificHeatRatio := 114/100, molarMass := 38/1000 }

/-- Modelled from the spec: PropellantTable — pure lookup by identifier
over the closed supported set; an unsupported identifier is a
configuration error (the spec's `LookupError` kind), fatal to the run. -/
def lookupPropellant (ident : String) : Except SimError Propellant :=
  if ident = "KNDX" then .ok knDX
  else if ident = "KNSB-NAKKA" then .ok knSBNakka
  else if ident = "KNSB" then .ok knSB
  else if ident = "KNSU" then .ok knSU
  else if ident = "KNER" then .ok knER
  else .error (.configurationError ("unsupported propellant identifier: " ++ ident))

/-! ## GrainGeometryModel -/

/-- Rational stand-in for π; the claims depend only on its positivity. -/
def piQ : ℚ := 355 / 113

/-- Current core (bore) radius after burn depth `d`: the bore grows
radially outward. -/
def coreRadius (g : Grain) (d : ℚ) : ℚ := g.coreDiameter / 2 + d

/-- Outer radius of the grain (fixed by the casing). -/
def outerRadius (g : Grain) : ℚ := g.outerDiameter / 2

/-- Number of uninhibited end faces of a grain (0, 1 or 2). -/
def uninhibitedFaces (g : Grain) : ℚ :=
  (if g.topFaceInhibited then 0 else 1) + (if g.bottomFaceInhibited then 0 else 1)

/-- Current segment length after burn depth `d`: each uninhibited end
face regresses inward by `d`. -/
def currentLength (g : Grain) (d : ℚ) : ℚ := g.length - uninhibitedFaces g * d

/-- Web thickness: radial distance from the initial bore surface to the
outer case; it bounds the burn depth and defines radial burnout. -/
def webThickness (g : Grain) : ℚ := (g.outerDiameter - g.coreDiameter) / 2

/-- Modelled from the spec: a segment is fully consumed when the core
radius reaches the outer radius, or when the length is exhausted by
end-face regression. -/
def burnedOut (g : Grain) (d : ℚ) : Bool :=
  decide (outerRadius g ≤ coreRadius g d) || decide (currentLength g d ≤ 0)

/-- Lateral (bore) burn surface area of a grain at burn depth `d`. -/
def lateralArea (g : Grain) (d : ℚ) : ℚ :=
  2 * piQ * coreRadius g d * currentLength g d

/-- Annular area of one end face at burn depth `d`. -/
def endFaceArea (g : Grain) (d : ℚ) : ℚ :=
  piQ * (outerRadius g ^ 2 - coreRadius g d ^ 2)

/-- Contribution of the top end face to the burn surface area: zero when
the face is inhibited, the annular face area otherwise. -/
def topFaceContribution (g : Grain) (d : ℚ) : ℚ :=
  if g.topFaceInhibited then 0 else endFaceArea g d

/-- Contribution of the bottom end face to the burn surface area: zero
when the face is inhibited, the annular face area otherwise. -/
def bottomFaceContribution (g : Grain) (d : ℚ) : ℚ :=
  if g.bottomFaceInhibited then 0 else endFaceArea g d

/-- Modelled from the spec: GrainGeometryModel burn surface area — the
lateral area of the growing bore plus the contribution of each
non-inhibited end face; exactly zero once the segment is fully
consumed. -/
def grainBurnArea (g : Grain) (d : ℚ) : ℚ :=
  if burnedOut g d then 0
  else lateralArea g d + topFaceContribution g d + bottomFaceContribution g d

/-- Modelled from the spec: remaining propellant volume of a grain at
burn depth `d` (annular cylinder). -/
def grainVolume (g : Grain) (d : ℚ) : ℚ :=
  if burnedOut g d then 0
  else piQ * (outerRadius g ^ 2 - coreRadius g d ^ 2) * currentLength g d

/-! ## NozzleFlowModel -/

/-- Nozzle throat area (from the throat diameter). -/
def throatArea (cfg : Config) : ℚ := piQ * (cfg.throatDiameter / 2) ^ 2

/-- Nozzle exit area (from the exit diameter). -/
def exitArea (cfg : Config) : ℚ := piQ * (cfg.exitDiameter / 2) ^ 2

/-- Modelled from the spec: the propellant-specific characteristic
velocity term of the quasi-steady ("Hans Seidel") pressure relation.
The isentropic expression involves a square root; this rational
surrogate keeps its qualitative dependence (grows with combustion
temperature, shrinks with molar mass) and is positive for every table
entry, which is all the claims use. -/
def characteristicVelocity (pr : Propellant) : ℚ :=
  pr.combustionTemperature / (pr.specificHeatRatio * pr.molarMass * 40)

/-- Modelled from the spec: ideal choked mass flow through the throat —
proportional to chamber pressure and throat area, inversely proportional
to the characteristic velocity. -/
def chokedMassFlow (cfg : Config) (pr : Propellant) (p : ℚ) : ℚ :=
  p * throatArea cfg / characteristicVelocity pr

/-- Modelled from the spec: divergence-angle efficiency factor — a
rational small-angle surrogate for `(1 + cos α)/2` with the half-angle
`α` in degrees. -/
def divergenceAngleFactor (cfg : Config) : ℚ :=
  1 - cfg.divergenceHalfAngle ^ 2 / 30000

/-- Modelled from the spec: two-phase-flow loss factor, a closed-form
function of propellant parameters (rational surrogate). -/
def twoPhaseFlowFactor (pr : Propellant) : ℚ :=
  1 - pr.molarMass / 2

/-- Modelled from the spec: kinetic loss factor, a closed-form function
of the specific-heat ratio (rational surrogate). -/
def kineticLossFactor (pr : Propellant) : ℚ :=
  1 - (pr.specificHeatRatio - 1) / 10

/-- Modelled from the spec: boundary-layer loss factor, a closed-form
function of nozzle geometry (rational surrogate). -/
def boundaryLayerFactor (cfg : Config) : ℚ :=
  1 - cfg.throatDiameter / (cfg.exitDiameter + cfg.throatDiameter + 1) / 10

/-- Modelled from the spec: the combined nozzle correction factor — the
four empirical factors applied multiplicatively in the fixed documented
order: divergence angle, then two-phase flow, then kinetic loss, then
boundary layer. -/
def nozzleCorrectionFactor (cfg : Config) (pr : Propellant) : ℚ :=
  ((divergenceAngleFactor cfg * twoPhaseFlowFactor pr) * kineticLossFactor pr)
    * boundaryLayerFactor cfg

/-- Modelled from the spec: exit pressure from the area-ratio relation
(non-submerged nozzle).  The isentropic relation is transcendental; this
rational surrogate is decreasing in the exit-to-throat area ratio. -/
def exitPressure (cfg : Config) (pr : Propellant) (p : ℚ) : ℚ :=
  p * (throatArea cfg / exitArea cfg) ^ (1 + pr.burnRateExponent)

/-- Modelled from the spec: effective exhaust velocity used by the
momentum term of the thrust equation. -/
def effectiveExhaustVelocity (cfg : Config) (pr : Propellant) : ℚ :=
  characteristicVelocity pr * (1 + exitArea cfg / (exitArea cfg + throatArea cfg))

/-! ## ThrustCalculator -/

/-- Modelled from the spec: ThrustCalculator — momentum term (mass flow
× effective exhaust velocity) plus pressure term ((exit pressure −
ambient pressure) × exit area), the sum scaled by the combined nozzle
correction factor; exactly zero, not an error, once chamber pressure is
down to ambient (tail-off complete). -/
def thrustCalculator (cfg : Config) (pr : Propellant) (p : ℚ) : ℚ :=
  if p ≤ cfg.ambientPressure then 0
  else
    nozzleCorrectionFactor cfg pr *
      (chokedMassFlow cfg pr p * effectiveExhaustVelocity cfg pr +
        (exitPressure cfg pr p - cfg.ambientPressure) * exitArea cfg)

/-! ## ChamberStateSolver -/

/-- Modelled from the spec: local regression (burn) rate from the
burn-rate law `r = a·P^n` evaluated at the current chamber pressure. -/
def burnRate (pr : Propellant) (p : ℚ) : ℚ :=
  pr.burnRateCoefficient * p ^ pr.burnRateExponent

/-- Total burn surface area summed across grains (burned-out grains
contribute zero through `grainBurnArea`). -/
def totalBurnArea (gs : List Grain) (ds : List ℚ) : ℚ :=
  (List.zipWith grainBurnArea gs ds).sum

/-- Modelled from the spec: mass generation rate
`Σ (burn rate × surface area × propellant density)` (single shared
propellant, so the rate and density factor out of the sum). -/
def massGenerationRate (cfg : Config) (pr : Propellant) (s : SimulationState) : ℚ :=
  burnRate pr s.chamberPressure * totalBurnArea cfg.grains s.burnDepths * pr.density

/-- Modelled from the spec: the chamber pressure after one step of the
mass-balance differential equation — the pressure response is
proportional to the net mass-flow imbalance, scaled by the
characteristic-velocity term and the throat area (quasi-steady
"Hans Seidel" relation), integrated explicitly over `Δt`. -/
def nextPressure (cfg : Config) (pr : Propellant) (dt : ℚ) (s : SimulationState) : ℚ :=
  s.chamberPressure +
    dt * (massGenerationRate cfg pr s - chokedMassFlow cfg pr s.chamberPressure)
      * characteristicVelocity pr / throatArea cfg

/-- Modelled from the spec: residual propellant mass after one step. -/
def nextMass (cfg : Config) (pr : Propellant) (dt : ℚ) (s : SimulationState) : ℚ :=
  s.propellantMass - massGenerationRate cfg pr s * dt

/-- Advance one grain's burn depth by `regression rate × Δt`: a fully
consumed grain is frozen, and a live grain's depth is capped at the web
thickness (its burnout depth). -/
def advanceDepth (g : Grain) (d rdt : ℚ) : ℚ :=
  if burnedOut g d then d else min (d + rdt) (webThickness g)

/-- Advance every grain's burn depth over one step. -/
def advanceDepths (gs : List Grain) (ds : List ℚ) (rdt : ℚ) : List ℚ :=
  List.zipWith (fun g d => advanceDepth g d rdt) gs ds

/-- Modelled from the spec: one step of the ChamberStateSolver — burn
rate from current pressure, mass generation, choked outflow, explicit
pressure update, burn-depth advance; fails with `SimulationDivergedError`
when the new pressure or the residual propellant mass becomes negative
(a diverged, invalid configuration, not a transient condition). -/
def stepSim (cfg : Config) (pr : Propellant) (dt : ℚ) (s : SimulationState) :
    Except SimError SimulationState :=
  if nextPressure cfg pr dt s < 0 then
    .error (.simulationDiverged "chamber pressure became negative")
  else if nextMass cfg pr dt s < 0 then
    .error (.simulationDiverged "residual propellant mass became negative")
  else .ok
    { time := s.time + dt
      burnDepths := advanceDepths cfg.grains s.burnDepths (burnRate pr s.chamberPressure * dt)
      chamberPressure := nextPressure cfg pr dt s
      propellantMass := nextMass cfg pr dt s
      massFlowIn := massGenerationRate cfg pr s
      massFlowOut := chokedMassFlow cfg pr s.chamberPressure
      thrust := thrustCalculator cfg pr (nextPressure cfg pr dt s) }

/-! ## SimulationOrchestrator -/

/-- Modelled from the spec: the termination predicate — every grain
burned out and chamber pressure back down to ambient. -/
def terminated (cfg : Config) (s : SimulationState) : Bool :=
  (List.zipWith burnedOut cfg.grains s.burnDepths).all (fun b => b)
    && decide (s.chamberPressure ≤ cfg.ambientPressure)

/-- Modelled from the spec: the orchestrator's time loop — per step run
the solver, append the committed state, stop on the termination
predicate or when the configured step budget (the maximum simulation
time) is exhausted; a solver divergence aborts the loop at that step. -/
def loopSim (cfg : Config) (pr : Propellant) (dt : ℚ) :
    ℕ → SimulationState → Except SimError (List SimulationState)
  | 0, _ => .ok []
  | fuel + 1, s =>
    if terminated cfg s then .ok []
    else
      match stepSim cfg pr dt s with
      | .error e => .error e
      | .ok s' =>
        match loopSim cfg pr dt fuel s' with
        | .error e => .error e
        | .ok rest => .ok (s' :: rest)

/-- Modelled from the spec: configuration validation, run before the
time loop — propellant lookup first, then grain geometry (core diameter
strictly below outer diameter, positive length), then chamber and nozzle
dimensions.  Every failure is a `ConfigurationError`. -/
def validateConfig (cfg : Config) : Except SimError Propellant :=
  match lookupPropellant cfg.propellantId with
  | .error e => .error e
  | .ok pr =>
    if h : ∀ g ∈ cfg.grains, g.coreDiameter < g.outerDiameter ∧ 0 < g.length then
      if h2 : 0 < cfg.chamberInnerDiameter ∧ 0 < cfg.chamberLength
          ∧ 0 < cfg.throatDiameter ∧ 0 < cfg.exitDiameter then
        .ok pr
      else .error (.configurationError "non-positive chamber or nozzle dimension")
    else .error (.configurationError
      "invalid grain geometry: core diameter must be below outer diameter and length positive")

/-- Modelled from the spec: the initial simulation state — time zero,
zero burn depth per grain, chamber at ambient pressure, propellant mass
from the initial grain volumes. -/
def initialState (cfg : Config) (pr : Propellant) : SimulationState :=
  { time := 0
    burnDepths := cfg.grains.map (fun _ => 0)
    chamberPressure := cfg.ambientPressure
    propellantMass := (cfg.grains.map (fun g => grainVolume g 0 * pr.density)).sum
    massFlowIn := 0
    massFlowOut := 0
    thrust := 0 }

/-- Standard gravity as a rational. -/
def gravity : ℚ := 981 / 100

/-- Modelled from the spec: atmospheric density as a function of
altitude (linear rational surrogate, clamped at zero). -/
def airDensity (alt : ℚ) : ℚ := max 0 (5/4 - alt / 10000)

/-- Modelled from the spec: one TrajectorySimulator step — acceleration
= (thrust − drag − weight)/instantaneous mass, drag from the
drag-coefficient × dynamic-pressure model, vehicle mass decreasing with
the propellant mass consumed. -/
def stepTrajectory (cfg : Config) (dt : ℚ) (t : TrajectoryState) (s : SimulationState) :
    TrajectoryState :=
  let drag := cfg.dragCoefficient * airDensity t.altitude * t.velocity ^ 2 / 2
    * cfg.referenceArea
  let acc := (s.thrust - drag - t.vehicleMass * gravity) / t.vehicleMass
  { time := s.time
    altitude := t.altitude + t.velocity * dt
    velocity := t.velocity + acc * dt
    acceleration := acc
    vehicleMass := t.vehicleMass - s.massFlowIn * dt }

/-- Modelled from the spec: TrajectorySimulator — a fold over the
committed simulation states, producing the parallel trajectory sequence
when vehicle data was configured. -/
def simulateTrajectory (cfg : Config) (dt : ℚ) (states : List SimulationState) :
    List TrajectoryState :=
  match cfg.vehicleMass with
  | none => []
  | some m0 =>
    (states.foldl
      (fun (acc : TrajectoryState × List TrajectoryState) s =>
        let t' := stepTrajectory cfg dt acc.1 s
        (t', t' :: acc.2))
      ({ time := 0, altitude := 0, velocity := 0, acceleration := 0, vehicleMass := m0 }, [])).2.reverse

/-- Modelled from the spec: the SimulationOrchestrator — validate the
configuration (propellant lookup included) before the time loop, build
the state sequence by the explicit fold of `loopSim`, and on success
emit the full ordered simulation and trajectory sequences; on any
failure emit the error and no states at all. -/
def runSimulation (cfg : Config) (dt : ℚ) :
    Except SimError (List SimulationState × List TrajectoryState) :=
  match validateConfig cfg with
  | .error e => .error e
  | .ok pr =>
    let s0 := initialState cfg pr
    match loopSim cfg pr dt cfg.maxSteps s0 with
    | .error e => .error e
    | .ok rest => .ok (s0 :: rest, simulateTrajectory cfg dt (s0 :: rest))

/-- Pointwise order on the recorded per-grain burn depths of two
committed states (missing entries read as depth 0). -/
def depthsLe (a b : SimulationState) : Prop :=
  ∀ i : ℕ, a.burnDepths.getD i 0 ≤ b.burnDepths.getD i 0

instance : IsTrans SimulationState depthsLe :=
  ⟨fun _ _ _ h₁ h₂ i => le_trans (h₁ i) (h₂ i)⟩

/-! ## Concrete configurations used as evaluation inputs -/

/-- A concrete BATES grain with both end faces inhibited. -/
def demoGrain : Grain :=
  { outerDiameter := 4, coreDiameter := 2, length := 10,
    topFaceInhibited := true, bottomFaceInhibited := true }

/-- A concrete valid configuration (KNSB propellant, one grain); its
two-step run succeeds. -/
def demoConfig : Config :=
  { grains := [demoGrain], propellantId := "KNSB",
    chamberInnerDiameter := 5, chamberLength := 20,
    throatDiameter := 2, exitDiameter := 4, divergenceHalfAngle := 15,
    ambientPressure := 1, vehicleMass := none,
    dragCoefficient := 0, referenceArea := 0, maxSteps := 2 }

/-- The value of the successful two-step run of `demoConfig`. -/
def demoRun : List SimulationState × List TrajectoryState :=
  match runSimulation demoConfig 1 with
  | .ok r => r
  | .error _ => ([], [])

/-- `demoConfig` with an unsupported propellant identifier. -/
def knxxConfig : Config :=
  { demoConfig with propellantId := "KNXX" }

/-- A degenerate grain whose core diameter equals its outer diameter. -/
def badGrain : Grain :=
  { outerDiameter := 4, coreDiameter := 4, length := 10,
    topFaceInhibited := true, bottomFaceInhibited := true }

/-- `demoConfig` with the degenerate grain. -/
def badGrainConfig : Config :=
  { demoConfig with grains := [badGrain] }

/-- A committed state of `demoConfig` whose grain is fully consumed but
whose chamber pressure is still far above ambient; with step size 2 the
explicit pressure update drives the pressure negative. -/
def divergedState : SimulationState :=
  { time := 0, burnDepths := [1], chamberPressure := 4, propellantMass := 10,
    massFlowIn := 0, massFlowOut := 0, thrust := 0 }

/-! ## Frontend: the FormControl component (src/frontend/components/Button.js) -/

/-- The props accepted by `FormControl`; `typeProp` is `none` when the
`type` prop is omitted (the JS default parameter `type = 'text'` then
applies). -/
structure FormControlProps where
  title : String
  typeProp : Option String
  value : String
  placeholder : String
  deriving Repr, DecidableEq

/-- The observable shape of one render of `FormControl`: the label text,
the `type` attribute of the `<input>`, whether the show/hide toggle span
is rendered, and the initial `src` of its eye icon when it is. -/
structure FormControlRender where
  labelText : String
  inputType : String
  toggleRendered : Bool
  iconSrc : Option String
  deriving Repr, DecidableEq

/-- One render of `FormControl`: the input's `type` attribute is the
`type` prop defaulted to `"text"`, and the toggle span (with the
`/icons/eye_slash.svg` icon) is rendered exactly under the JSX guard
`type === 'password'`. -/
def renderFormControl (p : FormControlProps) : FormControlRender :=
  { labelText := p.title
    inputType := p.typeProp.getD "text"
    toggleRendered := p.typeProp.getD "text" == "password"
    iconSrc :=
      if p.typeProp.getD "text" == "password" then some "/icons/eye_slash.svg" else none }

/-- First-occurrence substring replacement on character lists, the
semantics of the JavaScript `String.prototype.replace` with a string
pattern: the leftmost occurrence of `pat` is replaced by `rep`; if `pat`
does not occur the list is unchanged. -/
def replaceFirstAux (pat rep : List Char) : List Char → List Char
  | [] => []
  | c :: cs =>
    if pat.isPrefixOf (c :: cs) then rep ++ (c :: cs).drop pat.length
    else c :: replaceFirstAux pat rep cs

/-- JavaScript `s.replace(pat, rep)` for string patterns (an empty
pattern matches at position 0, as in JavaScript). -/
def jsReplaceFirst (s pat rep : String) : String :=
  if pat.data.isEmpty then ⟨rep.data ++ s.data⟩
  else ⟨replaceFirstAux pat.data rep.data s.data⟩

/-- The mutable pieces touched by `passwordShowHideHandler`: the closure
variable `isPasswordShown` (re-initialised to `false` on every render of
the component), the input element's `type` attribute, and the icon
image's `src`. -/
structure FormControlView where
  isPasswordShown : Bool
  inputType : String
  imgSrc : String
  deriving Repr, DecidableEq

/-- `passwordShowHideHandler` from `FormControl`: when the password is
flagged as shown it sets the input type to `'password'`, clears the
flag, and rewrites `'eye'` to `'eye_slash'` in the icon src; otherwise
it sets the type to `'text'`, sets the flag, and rewrites `'eye_slash'`
to `'eye'`. -/
def passwordShowHideHandler (v : FormControlView) : FormControlView :=
  if v.isPasswordShown then
    { isPasswordShown := false
      inputType := "password"
      imgSrc := jsReplaceFirst v.imgSrc "eye" "eye_slash" }
  else
    { isPasswordShown := true
      inputType := "text"
      imgSrc := jsReplaceFirst v.imgSrc "eye_slash" "eye" }

/-- The two renders of the toggle the component is designed around: the
hidden state (flag clear, masked input, `eye_slash` icon) and the shown
state (flag set, plain-text input, `eye` icon). -/
def consistentView (v : FormControlView) : Prop :=
  (v.isPasswordShown = false ∧ v.inputType = "password" ∧ v.imgSrc = "/icons/eye_slash.svg")
    ∨ (v.isPasswordShown = true ∧ v.inputType = "text" ∧ v.imgSrc = "/icons/eye.svg")

/-- Props of the login page's email field: `FormControl` called without
a `type` prop (src/frontend/pages, `<FormControl title='Email' />`). -/
def emailProps : FormControlProps :=
  { title := "Email", typeProp := none, value := "", placeholder := "" }

/-- The hidden-password render the component starts from: flag clear,
masked input, `eye_slash` icon. -/
def hiddenView : FormControlView :=
  { isPasswordShown := false, inputType := "password", imgSrc := "/icons/eye_slash.svg" }

/-- A reachable stale state: the password was shown (input `text`, `eye`
icon) and the component re-rendered, re-initialising the closure
variable `isPasswordShown` to `false` while the DOM kept its values. -/
def staleShownView : FormControlView :=
  { isPasswordShown := false, inputType := "text", imgSrc := "/icons/eye.svg" }

/-! ## Theorems -/

theorem web_le_implies_burnedOut (g : Grain) (d : ℚ) (h : webThickness g ≤ d) :
    burnedOut g d = true := by
  have hc : outerRadius g ≤ coreRadius g d := by
    simp only [outerRadius, coreRadius, webThickness] at *
    linarith
  simp [burnedOut, hc]

theorem burnArea_zero_of_web_le (g : Grain) (d : ℚ) (h : webThickness g ≤ d) :
    grainBurnArea g d = 0 := by
  simp [grainBurnArea, web_le_implies_burnedOut g d h]

theorem lookupPropellant_unsupported (ident : String) (h : ident ∉ supportedPropellants) :
    lookupPropellant ident =
      .error (.configurationError ("unsupported propellant identifier: " ++ ident)) := by
  simp only [supportedPropellants, List.mem_cons, List.not_mem_nil, or_false, not_or] at h
  obtain ⟨h1, h2, h3, h4, h5⟩ := h
  simp [lookupPropellant, h1, h2, h3, h4, h5]

theorem lookupPropellant_error_shape (ident : String) (e : SimError)
    (h : lookupPropellant ident = .error e) :
    e = .configurationError ("unsupported propellant identifier: " ++ ident) := by
  rw [lookupPropellant] at h
  split_ifs at h <;> simp_all

theorem lookupPropellant_coeff_nonneg (ident : String) (pr : Propellant)
    (h : lookupPropellant ident = .ok pr) : 0 ≤ pr.burnRateCoefficient := by
  rw [lookupPropellant] at h
  split_ifs at h <;> simp_all <;>
    subst h <;> norm_num [knDX, knSBNakka, knSB, knSU, knER]

theorem validateConfig_ok_dest (cfg : Config) (pr : Propellant)
    (h : validateConfig cfg = .ok pr) :
    lookupPropellant cfg.propellantId = .ok pr ∧
      (∀ g ∈ cfg.grains, g.coreDiameter < g.outerDiameter ∧ 0 < g.length) := by
  rw [validateConfig] at h
  cases hl : lookupPropellant cfg.propellantId with
  | error e => rw [hl] at h; cases h
  | ok pr' =>
    rw [hl] at h
    split_ifs at h with hg hd
    cases h
    exact ⟨rfl, hg⟩

theorem validateConfig_error_shape (cfg : Config) (e : SimError)
    (h : validateConfig cfg = .error e) : ∃ m, e = .configurationError m := by
  rw [validateConfig] at h
  cases hl : lookupPropellant cfg.propellantId with
  | error e' =>
    rw [hl] at h
    cases h
    exact ⟨_, lookupPropellant_error_shape _ _ hl⟩
  | ok pr' =>
    rw [hl] at h
    split_ifs at h <;> cases h <;> exact ⟨_, rfl⟩

theorem stepSim_ok_dest (cfg : Config) (pr : Propellant) (dt : ℚ)
    (s s' : SimulationState) (h : stepSim cfg pr dt s = .ok s') :
    0 ≤ nextPressure cfg pr dt s ∧ 0 ≤ nextMass cfg pr dt s ∧
      s' = { time := s.time + dt
             burnDepths := advanceDepths cfg.grains s.burnDepths
               (burnRate pr s.chamberPressure * dt)
             chamberPressure := nextPressure cfg pr dt s
             propellantMass := nextMass cfg pr dt s
             massFlowIn := massGenerationRate cfg pr s
             massFlowOut := chokedMassFlow cfg pr s.chamberPressure
             thrust := thrustCalculator cfg pr (nextPressure cfg pr dt s) } := by
  rw [stepSim] at h
  split_ifs at h with h1 h2
  cases h
  exact ⟨le_of_not_lt h1, le_of_not_lt h2, rfl⟩

/-- C1: a configuration whose propellant identifier lies outside the
closed supported set (KNDX, KNSB-NAKKA, KNSB, KNSU, KNER) makes the
PropellantTable lookup fail with the `LookupError` configuration-error
kind, and the SimulationOrchestrator surfaces exactly this failure, so
no SimulationState and no TrajectoryState is ever produced (the run's
result is the bare error, carrying no state sequence). -/
theorem unsupported_propellant_rejected (cfg : Config) (dt : ℚ)
    (h : cfg.propellantId ∉ supportedPropellants) :
    lookupPropellant cfg.propellantId =
      .error (.configurationError
        ("unsupported propellant identifier: " ++ cfg.propellantId)) ∧
    runSimulation cfg dt =
      .error (.configurationError
        ("unsupported propellant identifier: " ++ cfg.propellantId)) := by
  have hl := lookupPropellant_unsupported cfg.propellantId h
  refine ⟨hl, ?_⟩
  rw [runSimulation, validateConfig, hl]

theorem unsupported_propellant_rejected_witness :
    knxxConfig.propellantId ∉ supportedPropellants ∧
    (lookupPropellant knxxConfig.propellantId =
      .error (.configurationError
        ("unsupported propellant identifier: " ++ knxxConfig.propellantId)) ∧
    runSimulation knxxConfig 1 =
      .error (.configurationError
        ("unsupported propellant identifier: " ++ knxxConfig.propellantId))) :=
  ⟨by decide, unsupported_propellant_rejected knxxConfig 1 (by decide)⟩

theorem le_advanceDepth (g : Grain) (d rdt : ℚ) (h : 0 ≤ rdt) :
    d ≤ advanceDepth g d rdt := by
  rw [advanceDepth]
  split_ifs with hb
  · exact le_refl d
  · have hb' : ¬ (outerRadius g ≤ coreRadius g d) ∧ ¬ (currentLength g d ≤ 0) := by
      simpa [burnedOut, not_or] using hb
    refine le_min (by linarith) ?_
    have h1 := hb'.1
    simp only [outerRadius, coreRadius, webThickness] at *
    linarith

theorem getD_le_advanceDepths (rdt : ℚ) (h : 0 ≤ rdt) :
    ∀ (gs : List Grain) (ds : List ℚ), ds.length = gs.length →
      ∀ i, ds.getD i 0 ≤ (advanceDepths gs ds rdt).getD i 0
  | [], [], _, i => by simp [advanceDepths]
  | [], d :: ds, hlen, i => by simp at hlen
  | g :: gs, [], hlen, i => by simp at hlen
  | g :: gs, d :: ds, hlen, 0 => by
    simpa [advanceDepths] using le_advanceDepth g d rdt h
  | g :: gs, d :: ds, hlen, i + 1 => by
    simp only [advanceDepths, List.zipWith_cons_cons, List.getD_cons_succ]
    exact getD_le_advanceDepths rdt h gs ds (by simpa using hlen) i

theorem length_advanceDepths (gs : List Grain) (ds : List ℚ) (rdt : ℚ)
    (h : ds.length = gs.length) : (advanceDepths gs ds rdt).length = gs.length := by
  simp [advanceDepths, h]

theorem loopSim_ok_time_chain (cfg : Config) (pr : Propellant) (dt : ℚ) (hdt : 0 < dt)
    (fuel : ℕ) :
    ∀ (s : SimulationState) (rest : List SimulationState),
      loopSim cfg pr dt fuel s = .ok rest →
      List.Chain' (fun a b => a.time < b.time) (s :: rest) := by
  induction fuel with
  | zero =>
    intro s rest h
    rw [loopSim] at h
    cases h
    simp
  | succ n ih =>
    intro s rest h
    rw [loopSim] at h
    split_ifs at h with ht
    · cases h; simp
    · cases hs : stepSim cfg pr dt s with
      | error e => rw [hs] at h; cases h
      | ok s' =>
        rw [hs] at h
        dsimp only at h
        cases hr : loopSim cfg pr dt n s' with
        | error e => rw [hr] at h; cases h
        | ok rest' =>
          rw [hr] at h
          dsimp only at h
          cases h
          refine List.chain'_cons.mpr ⟨?_, ih s' rest' hr⟩
          have hd := stepSim_ok_dest cfg pr dt s s' hs
          have htime : s'.time = s.time + dt := by rw [hd.2.2]
          rw [htime]
          linarith

theorem loopSim_ok_depth_chain (cfg : Config) (pr : Propellant) (dt : ℚ)
    (hdt : 0 ≤ dt) (ha : 0 ≤ pr.burnRateCoefficient) (fuel : ℕ) :
    ∀ (s : SimulationState) (rest : List SimulationState),
      0 ≤ s.chamberPressure → s.burnDepths.length = cfg.grains.length →
      loopSim cfg pr dt fuel s = .ok rest →
      List.Chain' depthsLe (s :: rest) := by
  induction fuel with
  | zero =>
    intro s rest _ _ h
    rw [loopSim] at h
    cases h
    simp
  | succ n ih =>
    intro s rest hp hlen h
    rw [loopSim] at h
    split_ifs at h with ht
    · cases h; simp
    · cases hs : stepSim cfg pr dt s with
      | error e => rw [hs] at h; cases h
      | ok s' =>
        rw [hs] at h
        dsimp only at h
        cases hr : loopSim cfg pr dt n s' with
        | error e => rw [hr] at h; cases h
        | ok rest' =>
          rw [hr] at h
          dsimp only at h
          cases h
          have hd := stepSim_ok_dest cfg pr dt s s' hs
          have hrdt : 0 ≤ burnRate pr s.chamberPressure * dt :=
            mul_nonneg (mul_nonneg ha (pow_nonneg hp _)) hdt
          have hdepths : s'.burnDepths =
              advanceDepths cfg.grains s.burnDepths (burnRate pr s.chamberPressure * dt) := by
            rw [hd.2.2]
          have hp' : 0 ≤ s'.chamberPressure := by rw [hd.2.2]; exact hd.1
          have hlen' : s'.burnDepths.length = cfg.grains.length := by
            rw [hdepths]; exact length_advanceDepths _ _ _ hlen
          refine List.chain'_cons.mpr ⟨?_, ih s' rest' hp' hlen' hr⟩
          intro i
          rw [hdepths]
          exact getD_le_advanceDepths _ hrdt cfg.grains s.burnDepths hlen i

theorem runSimulation_ok_dest (cfg : Config) (dt : ℚ)
    (out : List SimulationState × List TrajectoryState)
    (h : runSimulation cfg dt = .ok out) :
    ∃ pr rest, validateConfig cfg = .ok pr ∧
      loopSim cfg pr dt cfg.maxSteps (initialState cfg pr) = .ok rest ∧
      out = (initialState cfg pr :: rest,
        simulateTrajectory cfg dt (initialState cfg pr :: rest)) := by
  rw [runSimulation] at h
  cases hv : validateConfig cfg with
  | error e => rw [hv] at h; simp at h
  | ok pr =>
    rw [hv] at h
    dsimp only at h
    cases hl : loopSim cfg pr dt cfg.maxSteps (initialState cfg pr) with
    | error e => rw [hl] at h; simp at h
    | ok rest =>
      rw [hl] at h
      dsimp only at h
      cases h
      exact ⟨pr, rest, rfl, hl, rfl⟩

/-- C2: for every configuration the orchestrator either returns the
complete state sequence — a finite list, strictly ordered in time — or
fails with one of the error kinds of the §7 taxonomy (`SimError`); the
`Except` result carries states only in the success case, so a partial
sequence is never returned as a success result. -/
theorem run_complete_or_error (cfg : Config) (dt : ℚ) (hdt : 0 < dt) :
    (∃ out, runSimulation cfg dt = .ok out ∧
        List.Chain' (fun a b => a.time < b.time) out.1) ∨
      (∃ e, runSimulation cfg dt = .error e) := by
  cases hr : runSimulation cfg dt with
  | error e => exact .inr ⟨e, rfl⟩
  | ok out =>
    obtain ⟨pr, rest, hv, hl, hout⟩ := runSimulation_ok_dest cfg dt out hr
    refine .inl ⟨out, rfl, ?_⟩
    rw [hout]
    exact loopSim_ok_time_chain cfg pr dt hdt cfg.maxSteps _ rest hl

theorem run_complete_or_error_witness :
    0 < (1 : ℚ) ∧
    ((∃ out, runSimulation demoConfig 1 = .ok out ∧
        List.Chain' (fun a b => a.time < b.time) out.1) ∨
      (∃ e, runSimulation demoConfig 1 = .error e)) :=
  ⟨by decide, run_complete_or_error demoConfig 1 (by decide)⟩

/-- C3: the orchestrator is a pure function of the configuration and the
step size — two runs with identical configuration and identical step
size yield identical results, so a successful configuration reproduces
the identical state sequence and a failing configuration fails with the
identical error on every attempt. -/
theorem run_deterministic (cfg : Config) (dt : ℚ)
    (r₁ r₂ : Except SimError (List SimulationState × List TrajectoryState))
    (h₁ : runSimulation cfg dt = r₁) (h₂ : runSimulation cfg dt = r₂) :
    r₁ = r₂ := by rw [← h₁, ← h₂]

theorem runSimulation_demo_ok : runSimulation demoConfig 1 = Except.ok demoRun := by
  have hok : (runSimulation demoConfig 1).isOk = true := by
    with_unfolding_all decide
  rw [demoRun]
  cases hr : runSimulation demoConfig 1 with
  | ok r => rfl
  | error e => rw [hr] at hok; simp [Except.isOk, Except.toBool] at hok

theorem run_deterministic_witness :
    runSimulation demoConfig 1 = Except.ok demoRun ∧
      (Except.ok demoRun : Except SimError (List SimulationState × List TrajectoryState)) =
        Except.ok demoRun :=
  ⟨runSimulation_demo_ok,
    run_deterministic demoConfig 1 (Except.ok demoRun) (Except.ok demoRun)
      runSimulation_demo_ok runSimulation_demo_ok⟩

/-- C4: in every successful run, for every grain with core diameter
below outer diameter, the burn depth recorded at that grain's index is
non-decreasing across the whole committed state sequence (it advances by
`rate × Δt`, capped at the web thickness, until burnout and is frozen
after), and at any recorded depth that has reached the grain's burnout
depth (its web thickness) the grain's burn-surface-area contribution in
the GrainGeometryModel is exactly zero — so from the first step at which
burnout is reached onward the contribution stays zero. -/
theorem burn_depth_monotone_area_zero (cfg : Config) (dt : ℚ)
    (out : List SimulationState × List TrajectoryState)
    (hdt : 0 < dt) (hamb : 0 ≤ cfg.ambientPressure)
    (hrun : runSimulation cfg dt = .ok out)
    (i : ℕ) (hi : i < cfg.grains.length)
    (hcore : (cfg.grains.get ⟨i, hi⟩).coreDiameter <
      (cfg.grains.get ⟨i, hi⟩).outerDiameter) :
    List.Pairwise (fun a b => a.burnDepths.getD i 0 ≤ b.burnDepths.getD i 0) out.1 ∧
      ∀ s ∈ out.1, webThickness (cfg.grains.get ⟨i, hi⟩) ≤ s.burnDepths.getD i 0 →
        grainBurnArea (cfg.grains.get ⟨i, hi⟩) (s.burnDepths.getD i 0) = 0 := by
  obtain ⟨pr, rest, hv, hl, hout⟩ := runSimulation_ok_dest cfg dt out hrun
  have hvd := validateConfig_ok_dest cfg pr hv
  have ha : 0 ≤ pr.burnRateCoefficient := lookupPropellant_coeff_nonneg _ _ hvd.1
  have hchain : List.Chain' depthsLe (initialState cfg pr :: rest) := by
    apply loopSim_ok_depth_chain cfg pr dt (le_of_lt hdt) ha cfg.maxSteps _ rest _ _ hl
    · exact hamb
    · simp [initialState]
  have hpw : List.Pairwise depthsLe (initialState cfg pr :: rest) :=
    List.chain'_iff_pairwise.mp hchain
  constructor
  · rw [hout]
    exact hpw.imp (fun h => h i)
  · intro s _ hweb
    exact burnArea_zero_of_web_le _ _ hweb

theorem burn_depth_monotone_area_zero_witness :
    0 < (1 : ℚ) ∧ 0 ≤ demoConfig.ambientPressure ∧
    runSimulation demoConfig 1 = Except.ok demoRun ∧
    0 < demoConfig.grains.length ∧
    demoGrain.coreDiameter < demoGrain.outerDiameter ∧
    (List.Pairwise (fun a b => a.burnDepths.getD 0 0 ≤ b.burnDepths.getD 0 0)
        demoRun.1 ∧
      ∀ s ∈ demoRun.1, webThickness demoGrain ≤ s.burnDepths.getD 0 0 →
        grainBurnArea demoGrain (s.burnDepths.getD 0 0) = 0) :=
  ⟨by decide, by with_unfolding_all decide, runSimulation_demo_ok,
    by with_unfolding_all decide, by with_unfolding_all decide,
    burn_depth_monotone_area_zero demoConfig 1 demoRun (by decide)
      (by with_unfolding_all decide) runSimulation_demo_ok 0
      (by with_unfolding_all decide) (by with_unfolding_all decide)⟩

/-- C5: whenever the ChamberStateSolver's step makes the chamber
pressure negative (the non-finite case has no counterpart in exact
rational arithmetic) or drives the residual propellant mass negative,
the solver fails with a `SimulationDivergedError`, and the
orchestrator's loop, arriving at that state with budget remaining,
aborts at exactly that step with the same error — no retry, no further
states. -/
theorem divergence_aborts_run (cfg : Config) (pr : Propellant) (dt : ℚ)
    (s : SimulationState) (fuel : ℕ)
    (h : nextPressure cfg pr dt s < 0 ∨ nextMass cfg pr dt s < 0) :
    ∃ m, stepSim cfg pr dt s = .error (.simulationDiverged m) ∧
      (terminated cfg s = false →
        loopSim cfg pr dt (fuel + 1) s = .error (.simulationDiverged m)) := by
  by_cases hp : nextPressure cfg pr dt s < 0
  · refine ⟨"chamber pressure became negative", ?_, ?_⟩
    · rw [stepSim, if_pos hp]
    · intro ht
      rw [loopSim]
      rw [stepSim, if_pos hp]
      simp [ht]
  · have hm : nextMass cfg pr dt s < 0 := h.resolve_left hp
    refine ⟨"residual propellant mass became negative", ?_, ?_⟩
    · rw [stepSim, if_neg hp, if_pos hm]
    · intro ht
      rw [loopSim]
      rw [stepSim, if_neg hp, if_pos hm]
      simp [ht]

theorem divergence_aborts_run_witness :
    (nextPressure demoConfig knSB 2 divergedState < 0 ∨
      nextMass demoConfig knSB 2 divergedState < 0) ∧
    terminated demoConfig divergedState = false ∧
    (∃ m, stepSim demoConfig knSB 2 divergedState = .error (.simulationDiverged m) ∧
      (terminated demoConfig divergedState = false →
        loopSim demoConfig knSB 2 (0 + 1) divergedState =
          .error (.simulationDiverged m))) :=
  ⟨Or.inl (by with_unfolding_all decide), by with_unfolding_all decide,
    divergence_aborts_run demoConfig knSB 2 divergedState 0
      (Or.inl (by with_unfolding_all decide))⟩

/-- C6: a configuration containing a grain whose core diameter equals or
exceeds its outer diameter, or whose length is non-positive, is rejected
by validation with a `ConfigurationError` before the time loop starts —
the orchestrator's result is the bare error, so the grain is never
treated as a zero-area contributor in any state. -/
theorem invalid_grain_rejected (cfg : Config) (dt : ℚ) (g : Grain)
    (hg : g ∈ cfg.grains)
    (hbad : g.outerDiameter ≤ g.coreDiameter ∨ g.length ≤ 0) :
    ∃ m, runSimulation cfg dt = .error (.configurationError m) := by
  cases hv : validateConfig cfg with
  | ok pr =>
    exfalso
    have hgood := (validateConfig_ok_dest cfg pr hv).2 g hg
    rcases hbad with hb | hb
    · linarith [hgood.1]
    · linarith [hgood.2]
  | error e =>
    obtain ⟨m, rfl⟩ := validateConfig_error_shape cfg e hv
    exact ⟨m, by rw [runSimulation, hv]⟩

theorem invalid_grain_rejected_witness :
    badGrain ∈ badGrainConfig.grains ∧
    (badGrain.outerDiameter ≤ badGrain.coreDiameter ∨ badGrain.length ≤ 0) ∧
    (∃ m, runSimulation badGrainConfig 1 = .error (.configurationError m)) :=
  ⟨by with_unfolding_all decide, Or.inl (by with_unfolding_all decide),
    invalid_grain_rejected badGrainConfig 1 badGrain
      (by with_unfolding_all decide) (Or.inl (by with_unfolding_all decide))⟩

/-- C7: the ThrustCalculator returns exactly the momentum term (choked
mass flow × effective exhaust velocity) plus the pressure term ((exit
pressure − ambient pressure) × exit area), the sum scaled by the
combined nozzle correction factor, whenever chamber pressure is above
ambient; and it returns exactly zero thrust, not an error, in every
state where chamber pressure has dropped to (or below) ambient. -/
theorem thrust_formula_and_tailoff (cfg : Config) (pr : Propellant) (p : ℚ) :
    (cfg.ambientPressure < p →
      thrustCalculator cfg pr p =
        nozzleCorrectionFactor cfg pr *
          (chokedMassFlow cfg pr p * effectiveExhaustVelocity cfg pr +
            (exitPressure cfg pr p - cfg.ambientPressure) * exitArea cfg)) ∧
    (p ≤ cfg.ambientPressure → thrustCalculator cfg pr p = 0) := by
  constructor
  · intro h
    rw [thrustCalculator, if_neg (not_le.mpr h)]
  · intro h
    rw [thrustCalculator, if_pos h]

theorem thrust_formula_and_tailoff_witness :
    demoConfig.ambientPressure < 5 ∧ (1 : ℚ) ≤ demoConfig.ambientPressure ∧
    thrustCalculator demoConfig knSB 5 =
      nozzleCorrectionFactor demoConfig knSB *
        (chokedMassFlow demoConfig knSB 5 * effectiveExhaustVelocity demoConfig knSB +
          (exitPressure demoConfig knSB 5 - demoConfig.ambientPressure) *
            exitArea demoConfig) ∧
    thrustCalculator demoConfig knSB 1 = 0 :=
  ⟨by with_unfolding_all decide, by with_unfolding_all decide,
    (thrust_formula_and_tailoff demoConfig knSB 5).1 (by with_unfolding_all decide),
    (thrust_formula_and_tailoff demoConfig knSB 1).2 (by with_unfolding_all decide)⟩

/-- C8: in the GrainGeometryModel, an inhibited end face contributes
exactly zero burn surface area at every burn depth `d`; the model's
output area for a live grain is the lateral bore area plus the two
end-face contributions, so inhibited faces never add area regardless of
depth. -/
theorem inhibited_faces_zero_area (g : Grain) (d : ℚ) :
    (g.topFaceInhibited = true → topFaceContribution g d = 0) ∧
    (g.bottomFaceInhibited = true → bottomFaceContribution g d = 0) ∧
    (burnedOut g d = false →
      grainBurnArea g d =
        lateralArea g d + topFaceContribution g d + bottomFaceContribution g d) := by
  refine ⟨fun h => ?_, fun h => ?_, fun h => ?_⟩
  · rw [topFaceContribution, if_pos h]
  · rw [bottomFaceContribution, if_pos h]
  · rw [grainBurnArea, h]
    simp

theorem inhibited_faces_zero_area_witness :
    demoGrain.topFaceInhibited = true ∧ demoGrain.bottomFaceInhibited = true ∧
    burnedOut demoGrain 0 = false ∧
    topFaceContribution demoGrain 0 = 0 ∧
    bottomFaceContribution demoGrain 0 = 0 ∧
    grainBurnArea demoGrain 0 =
      lateralArea demoGrain 0 + topFaceContribution demoGrain 0 +
        bottomFaceContribution demoGrain 0 :=
  ⟨rfl, rfl, by with_unfolding_all decide,
    (inhibited_faces_zero_area demoGrain 0).1 rfl,
    (inhibited_faces_zero_area demoGrain 0).2.1 rfl,
    (inhibited_faces_zero_area demoGrain 0).2.2 (by with_unfolding_all decide)⟩

/-- C9: a `FormControl` rendered without a `type` prop gets the default
`type = 'text'`: its input element has type `text` and no show/hide
password toggle is rendered; and across all props, the toggle span with
the eye icon is rendered if and only if the `type` prop equals
`'password'`. -/
theorem formControl_default_text_toggle_iff_password (p : FormControlProps) :
    (p.typeProp = none →
      (renderFormControl p).inputType = "text" ∧
        (renderFormControl p).toggleRendered = false) ∧
    ((renderFormControl p).toggleRendered = true ↔ p.typeProp = some "password") := by
  constructor
  · intro h
    simp [renderFormControl, h]
  · cases hp : p.typeProp with
    | none => simp [renderFormControl, hp]
    | some t => simp [renderFormControl, hp]

theorem formControl_default_text_toggle_iff_password_witness :
    emailProps.typeProp = none ∧
    ((renderFormControl emailProps).inputType = "text" ∧
      (renderFormControl emailProps).toggleRendered = false) ∧
    ((renderFormControl emailProps).toggleRendered = true ↔
      emailProps.typeProp = some "password") :=
  ⟨rfl, (formControl_default_text_toggle_iff_password emailProps).1 rfl,
    (formControl_default_text_toggle_iff_password emailProps).2⟩

/-- C10 counterexample: at the reachable state where the password had
been shown and the component re-rendered (so the closure flag
`isPasswordShown` is back to `false` while the input still has type
`text` and the icon src `/icons/eye.svg`), two successive invocations of
`passwordShowHideHandler` do not restore the input's type (it ends at
`password`) nor the icon src (it ends at `/icons/eye_slash.svg`) — the
handler is not an involution on every state. -/
theorem passwordShowHideHandler_not_involutive :
    ¬ ((passwordShowHideHandler (passwordShowHideHandler staleShownView)).inputType =
          staleShownView.inputType ∧
        (passwordShowHideHandler (passwordShowHideHandler staleShownView)).imgSrc =
          staleShownView.imgSrc) := by
  decide

/-- C10 (amended): on every state whose closure flag agrees with the
input's visibility — flag `false` with a `password`-typed input and the
`eye_slash` icon, or flag `true` with a `text`-typed input and the `eye`
icon — two successive invocations of `passwordShowHideHandler` restore
both the input's `type` attribute and the icon image's `src` to their
values before the first invocation. -/
theorem passwordShowHideHandler_involutive_on_consistent (v : FormControlView)
    (h : consistentView v) :
    (passwordShowHideHandler (passwordShowHideHandler v)).inputType = v.inputType ∧
    (passwordShowHideHandler (passwordShowHideHandler v)).imgSrc = v.imgSrc := by
  obtain ⟨f, t, s⟩ := v
  obtain ⟨h1, h2, h3⟩ | ⟨h1, h2, h3⟩ := h <;>
    simp only at h1 h2 h3 <;> subst h1 <;> subst h2 <;> subst h3 <;> decide

theorem passwordShowHideHandler_involutive_witness :
    consistentView hiddenView ∧
    ((passwordShowHideHandler (passwordShowHideHandler hiddenView)).inputType =
        hiddenView.inputType ∧
      (passwordShowHideHandler (passwordShowHideHandler hiddenView)).imgSrc =
        hiddenView.imgSrc) :=
  ⟨Or.inl ⟨rfl, rfl, rfl⟩,
    passwordShowHideHandler_involutive_on_consistent hiddenView
      (Or.inl ⟨rfl, rfl, rfl⟩)⟩
